import Mathlib

/-!
Verification of the scheduling/orchestration harnesses of lsst-dm/google-poc-drp.

The repository has two Python harnesses:
  * `apxfr/src/harness.py` (the main one: `Waiter`, `copy`, `Uploader.create`,
    the uploader classes and `simulate`), and
  * `src/harness.py` (an earlier variant: `wait_until`, its own `copy`,
    `Uploader.create` and `simulate`).

This file gives a shallow embedding of those functions and proves properties
about them.  Python `str` values are embedded as `List Char` (`PyStr`);
`datetime` values as the `Instant` structure (local calendar day index plus
time-of-day fields); `subprocess.run` results and network outcomes are passed
in as explicit oracle parameters, since the harness either ignores them
(`subprocess.run` without `check=True`) or turns them into exceptions
(`raise_for_status`).  Exceptions are embedded with `Except`.
-/

deriving instance DecidableEq for Except

namespace Harness

/-- Python `str`, embedded as its list of characters. -/
abbrev PyStr := List Char

/-- Decimal digits of `n` (helper for Python `f"{n:05d}"`-style formatting);
fuel-based recursion, `natDigitsAux (n+1) n` always has enough fuel. -/
def natDigitsAux : Nat → Nat → PyStr
  | 0, _ => []
  | fuel + 1, n =>
    if n < 10 then [Nat.digitChar n]
    else natDigitsAux fuel (n / 10) ++ [Nat.digitChar (n % 10)]

/-- Decimal representation of a natural number, as produced by Python `str(n)`
for `n ≥ 0`. -/
def natDigits (n : Nat) : PyStr := natDigitsAux (n + 1) n

/-- Python `f"{n:0wd}"`: decimal digits of `n`, left-padded with `'0'` to
width `w` (no truncation when the number is wider). -/
def zfill (w n : Nat) : PyStr :=
  List.replicate (w - (natDigits n).length) '0' ++ natDigits n

/-- Python `int(s)` on a string of decimal digits. -/
def strToNat (s : PyStr) : Nat := s.foldl (fun a c => a * 10 + (c.toNat - 48)) 0

/-- A local-calendar date, carrying exactly what `strftime("%Y%m%d")` and
`strftime("%Y-%m-%d")` read from a `datetime`. -/
structure ObsDate where
  year : Nat
  month : Nat
  dayOfMonth : Nat
deriving DecidableEq

/-- `now.strftime("%Y%m%d")`. -/
def fmtCompact (d : ObsDate) : PyStr := zfill 4 d.year ++ zfill 2 d.month ++ zfill 2 d.dayOfMonth

/-- `now.strftime("%Y-%m-%d")`. -/
def fmtDashed (d : ObsDate) : PyStr :=
  zfill 4 d.year ++ "-".data ++ zfill 2 d.month ++ "-".data ++ zfill 2 d.dayOfMonth

/-- A local wall-clock `datetime`, embedded as a local calendar-day index plus
time-of-day fields.  `day` is the number of the local calendar day (days since
an arbitrary epoch); the calendar rendering of dates is handled separately by
`ObsDate`. -/
structure Instant where
  day : Nat
  hour : Nat
  minute : Nat
  second : Nat
  micro : Nat
deriving DecidableEq

/-- Microseconds since the epoch of `day 0, 00:00:00.000000`; `datetime`
subtraction (`total_seconds`, up to the fixed `1e6` scale) and comparison act
on this value. -/
def Instant.toMicros (t : Instant) : Nat :=
  t.micro + 1000000 * (t.second + 60 * (t.minute + 60 * (t.hour + 24 * t.day)))

/-- Microseconds since local midnight of the same day. -/
def Instant.timeOfDayMicros (t : Instant) : Nat :=
  t.micro + 1000000 * (t.second + 60 * (t.minute + 60 * t.hour))

/-- Python `dt.replace(hour=h, minute=m, second=0, microsecond=0)`: keeps the
calendar day, overwrites the time-of-day fields. -/
def Instant.replaceHM (t : Instant) (h m : Nat) : Instant := ⟨t.day, h, m, 0, 0⟩

/-- `Waiter` from `apxfr/src/harness.py` (lines 50-86): holds the base time
(today's date at `hour:minute`, seconds and microseconds zeroed) and the
interval between exposures, both fixed at construction. -/
structure Waiter where
  base_time : Instant
  interval : Int

/-- `Waiter.__init__` (lines 66-69): `base_time` is
`datetime.now().replace(hour=hour, minute=minute, second=0, microsecond=0)`,
where `now` is the construction-time clock reading. -/
def Waiter.init (now : Instant) (hour minute : Nat) (interval : Int) : Waiter :=
  ⟨now.replaceHM hour minute, interval⟩

/-- Target instant of exposure `num`: `base_time + timedelta(seconds=num * interval)`,
in microseconds. -/
def Waiter.whenMicros (w : Waiter) (num : Nat) : Int :=
  (w.base_time.toMicros : Int) + num * w.interval * 1000000

/-- What `Waiter.wait_exposure` did: logged `Late` and returned at once, or
logged `Sleeping` and slept. -/
inductive WaitOutcome
  | late
  | slept
deriving DecidableEq

/-- `Waiter.wait_exposure` (lines 71-86).  `now` is the clock reading taken
inside the call; the result is the logged outcome together with the instant
(in microseconds) at which the call returns: immediately (`now`) when the
delay is negative, and after sleeping exactly the computed delay otherwise
(`time.sleep` guarantees at least the requested delay; we model the earliest
return). -/
def Waiter.wait_exposure (w : Waiter) (num : Nat) (now : Instant) : WaitOutcome × Int :=
  if w.whenMicros num - (now.toMicros : Int) < 0 then (.late, (now.toMicros : Int))
  else (.slept, (now.toMicros : Int) + (w.whenMicros num - (now.toMicros : Int)))

/-- Errors the harness can raise.  `configError` is the
`RuntimeError(f"Unrecognized URL {dest}")` raised by `Uploader.create`;
`stagingError` stands for an exception escaping `copy`; `transferError` for an
exception escaping an uploader's `transfer` (e.g. `raise_for_status`). -/
inductive SimError
  | configError (dest : PyStr)
  | stagingError (i : Nat)
  | transferError (i : Nat)
deriving DecidableEq

/-- The uploader instance built by `Uploader.create`: one constructor per
Python uploader class, carrying the string passed to that class's
`__init__`. -/
inductive Uploader
  | gsapiU (dest : PyStr)
  | botoU (dest : PyStr)
  | minioU (dest : PyStr)
  | httpU (dest : PyStr)
  | bbcpU (dest : PyStr)
  | scpU (dest : PyStr)
deriving DecidableEq

/-- `Uploader.create` from `apxfr/src/harness.py` (lines 140-167): dispatch on
the scheme prefix of the destination URI, in source order; the string slices
`dest[len("scheme://"):]` become `List.drop` of the prefix length. -/
def Uploader.create (dest : PyStr) : Except SimError Uploader :=
  if "gsapi://".data.isPrefixOf dest then .ok (.gsapiU (dest.drop 8))
  else if "boto://".data.isPrefixOf dest then .ok (.gsapiU (dest.drop 7))
  else if "minio://".data.isPrefixOf dest then .ok (.gsapiU (dest.drop 8))
  else if "https://".data.isPrefixOf dest || "http://".data.isPrefixOf dest then .ok (.httpU dest)
  else if "bbcp://".data.isPrefixOf dest then .ok (.httpU (dest.drop 7))
  else if "scp://".data.isPrefixOf dest then .ok (.scpU (dest.drop 6))
  else .error (.configError dest)

/-- Which Python uploader class an `Uploader` value is an instance of. -/
inductive UKind
  | gsapiK
  | botoK
  | minioK
  | httpK
  | bbcpK
  | scpK
deriving DecidableEq

/-- The class of a constructed uploader. -/
def Uploader.kind : Uploader → UKind
  | .gsapiU _ => .gsapiK
  | .botoU _ => .botoK
  | .minioU _ => .minioK
  | .httpU _ => .httpK
  | .bbcpU _ => .bbcpK
  | .scpU _ => .scpK

/-- The recognized URI schemes, in the order `Uploader.create` tests them
(`web` covers the single `https:// or http://` test). -/
inductive Scheme
  | gsapi
  | boto
  | minio
  | web
  | bbcp
  | scp
deriving DecidableEq

/-- The first scheme test of `Uploader.create` that a destination URI passes,
if any (same tests, same order as the source). -/
def matchedScheme (dest : PyStr) : Option Scheme :=
  if "gsapi://".data.isPrefixOf dest then some .gsapi
  else if "boto://".data.isPrefixOf dest then some .boto
  else if "minio://".data.isPrefixOf dest then some .minio
  else if "https://".data.isPrefixOf dest || "http://".data.isPrefixOf dest then some .web
  else if "bbcp://".data.isPrefixOf dest then some .bbcp
  else if "scp://".data.isPrefixOf dest then some .scp
  else none

/-- The uploader class `Uploader.create` instantiates for each recognized
scheme (read off the branches of the source dispatch). -/
def kindOfScheme : Scheme → UKind
  | .gsapi => .gsapiK
  | .boto => .gsapiK
  | .minio => .gsapiK
  | .web => .httpK
  | .bbcp => .httpK
  | .scp => .scpK

/-- State stored by `GsapiUploader.__init__` (lines 189-204): bucket name and
key prefix split off the destination string. -/
structure GsapiState where
  bucket : PyStr
  pfx : PyStr
deriving DecidableEq

/-- Python `s.split(sep, 1)` for a character separator: the part before the
first occurrence and the part after it. -/
def pySplitFirst : PyStr → Char → PyStr × PyStr
  | [], _ => ([], [])
  | c :: cs, sep =>
    if c = sep then ([], cs)
    else
      let p := pySplitFirst cs sep
      (c :: p.1, p.2)

/-- `GsapiUploader.__init__` (lines 189-204): splits `dest` on the first `/`
into bucket and prefix (no `/`: whole string is the bucket, empty prefix),
then performs the one-time priming download inside `try/except Exception`,
logging `Ignored: ...` and continuing when it fails.  `priming` is the outcome
of the probe (the exception text on failure); the second component of the
result is the list of `Ignored` log lines.  The body contains no other raise,
so construction always returns `.ok`. -/
def gsapiInit (dest : PyStr) (priming : Except PyStr Unit) :
    Except SimError (GsapiState × List PyStr) :=
  let bp := if dest.contains '/' then pySplitFirst dest '/' else (dest, [])
  let logs : List PyStr :=
    match priming with
    | .ok _ => []
    | .error exc => ["Ignored: ".data ++ exc]
  .ok (⟨bp.1, bp.2⟩, logs)

/-- A relative artifact path `dir1/dir2/fileName` as built by
`Path(obs_day_str).joinpath(...)` in both harnesses. -/
structure ArtifactPath where
  dir1 : PyStr
  dir2 : PyStr
  fileName : PyStr
deriving DecidableEq

/-- The rendered relative path. -/
def ArtifactPath.render (p : ArtifactPath) : PyStr :=
  p.dir1 ++ "/".data ++ p.dir2 ++ "/".data ++ p.fileName

/-- Everything before the last `'.'` of the string, or the string itself when
it has no `'.'` (how `pathlib.Path.with_suffix` strips the old suffix from the
file name). -/
def dropLastSuffix (s : PyStr) : PyStr :=
  if '.' ∈ s then ((s.reverse.dropWhile (· != '.')).drop 1).reverse else s

/-- Python `Path.with_suffix(suf)` applied to the file-name component: the old
suffix (from the last `'.'`) is replaced by `suf`. -/
def ArtifactPath.withSuffix (p : ArtifactPath) (suf : PyStr) : ArtifactPath :=
  { p with fileName := dropLastSuffix p.fileName ++ suf }

/-- `copy` from `apxfr/src/harness.py` (lines 106-134): copies the source into
the staging area with `subprocess.run(["cp", ...])`, then, when `compress` is
set, runs `subprocess.run(["fpack", ...])` and returns
`dest.with_suffix(".fits.fz")`.  Neither `subprocess.run` call uses
`check=True`, so the exit codes `cpExit` and `fpackExit` of the two child
processes are never inspected and the function body contains no raise: it
always returns `.ok`. -/
def copy (dest : ArtifactPath) (compress : Bool) (cpExit fpackExit : Int) :
    Except SimError ArtifactPath :=
  .ok (if compress then dest.withSuffix ".fits.fz".data else dest)

/-- `seqnum_start` from `apxfr/src/harness.py` (line 359):
`int(hour + minute) * 10`, where `hour` and `minute` are the two string halves
of `starttime.split(":")`. -/
def seqnum_start (hourStr minuteStr : PyStr) : Nat :=
  strToNat (hourStr ++ minuteStr) * 10

/-- The sequence number `simulate` in `apxfr/src/harness.py` uses for unit
`ccd_name` at exposure `i` (lines 357-374): `seqnum_start + i`.  The unit
identifier is a parameter of the naming contract, but the computation in the
source reads only the start time and the exposure index. -/
def unitSeqnum (ccd_name : PyStr) (hourStr minuteStr : PyStr) (i : Nat) : Nat :=
  seqnum_start hourStr minuteStr + i

/-- The destination path built by `simulate` in `apxfr/src/harness.py`
(lines 377-380):
`Path(obs_day_str).joinpath(f"{obs_day}{seqnum:05d}", f"MC_O_{obs_day}_{seqnum:05d}_{ccd_name}.fits")`.
The camera tag is the literal `MC` and the separator before the sensor name is
an underscore. -/
def apxfrDestPath (obs_day obs_day_str : PyStr) (sn : Nat) (ccd_name : PyStr) : ArtifactPath :=
  ⟨obs_day_str, obs_day ++ zfill 5 sn,
   "MC_O_".data ++ obs_day ++ "_".data ++ zfill 5 sn ++ "_".data ++ ccd_name ++ ".fits".data⟩

/-- The destination path built by `simulate` in `src/harness.py`
(lines 201-204):
`Path(obs_day_str).joinpath(f"{obs_day}{seqnum:05d}", f"{camera}_O_{obs_day}_{seqnum:05d}-{ccd}.fits")`.
The camera tag is a parameter and the separator before the sensor name is a
hyphen. -/
def srcDestPath (camera obs_day obs_day_str : PyStr) (sn : Nat) (ccd : PyStr) : ArtifactPath :=
  ⟨obs_day_str, obs_day ++ zfill 5 sn,
   camera ++ "_O_".data ++ obs_day ++ "_".data ++ zfill 5 sn ++ "-".data ++ ccd ++ ".fits".data⟩

/-- The artifact path format stated by the spec, written from the spec's words
for comparison with the source-derived paths:
`YYYY-MM-DD/YYYYMMDD<sequenceNumber:05d>/<cameraTag>_O_YYYYMMDD_<sequenceNumber:05d>-<sensorId>.fits[.<compressionExt>]`. -/
def specArtifactPath (d : ObsDate) (sn : Nat) (cameraTag sensorId : PyStr)
    (compressed : Bool) (compressionExt : PyStr) : PyStr :=
  fmtDashed d ++ "/".data ++ fmtCompact d ++ zfill 5 sn ++ "/".data ++
    cameraTag ++ "_O_".data ++ fmtCompact d ++ "_".data ++ zfill 5 sn ++ "-".data ++
    sensorId ++ ".fits".data ++ (if compressed then ".".data ++ compressionExt else [])

/-- Observable steps of one `simulate` run. -/
inductive SimEvent
  | uploaderCreated
  | waiterCreated
  | waited (i : Nat) (outcome : WaitOutcome) (ret : Int)
  | staged (i : Nat) (p : ArtifactPath)
  | transferred (i : Nat) (succeeded : Bool)
deriving DecidableEq

/-- External inputs of one `simulate` run: the clock readings the source takes
(`datetime.now()` in `Waiter.__init__`, inside each `wait_exposure`, and the
one whose date feeds the obs-day strings), the exit codes of the `cp`/`fpack`
child processes, and whether each exposure's backend transfer succeeds. -/
structure SimOracle where
  waiterNow : Instant
  clockAt : Nat → Instant
  obsNow : ObsDate
  cpExit : Nat → Int
  fpackExit : Nat → Int
  transferOk : Nat → Bool

/-- Loop-invariant data of the per-exposure loop of `simulate`
(`apxfr/src/harness.py` lines 369-385), all computed before the loop starts. -/
structure LoopCtx where
  ccd_name : PyStr
  sstart : Nat
  obs_day : PyStr
  obs_day_str : PyStr
  compress : Bool
  waiter : Waiter

/-- The per-exposure loop of `simulate` (`for i in range(numexp)`, lines
372-385), processing exposures `0 .. n-1` in order: wait, build the
destination path, `copy`, `uploader.transfer`.  There is no `try/except` in
the source loop, so an exception escaping `copy` or `transfer` propagates and
ends the run: once the error component is `some`, later iterations do not
execute. -/
def simulateLoop (ctx : LoopCtx) (o : SimOracle) : Nat → List SimEvent × Option SimError
  | 0 => ([], none)
  | n + 1 =>
    match simulateLoop ctx o n with
    | (evs, some e) => (evs, some e)
    | (evs, none) =>
      let wr := ctx.waiter.wait_exposure n (o.clockAt n)
      let sn := ctx.sstart + n
      let dest0 := apxfrDestPath ctx.obs_day ctx.obs_day_str sn ctx.ccd_name
      match copy dest0 ctx.compress (o.cpExit n) (o.fpackExit n) with
      | .error _ => (evs ++ [.waited n wr.1 wr.2], some (.stagingError n))
      | .ok dest1 =>
        if o.transferOk n then
          (evs ++ [.waited n wr.1 wr.2, .staged n dest1, .transferred n true], none)
        else
          (evs ++ [.waited n wr.1 wr.2, .staged n dest1, .transferred n false],
           some (.transferError n))

/-- `simulate` from `apxfr/src/harness.py` (lines 315-385): builds the
uploader (aborting with the construction error before anything else when the
scheme is unrecognized), then the `Waiter`, then derives the obs-day strings
from the run-start clock, then runs the per-exposure loop.  The result is the
ordered event trace and the error (if any) that ended the run. -/
def simulate (ccd_name hourStr minuteStr destination : PyStr) (interval : Int)
    (numexp : Nat) (compress : Bool) (o : SimOracle) :
    List SimEvent × Option SimError :=
  match Uploader.create destination with
  | .error e => ([], some e)
  | .ok _u =>
    let w := Waiter.init o.waiterNow (strToNat hourStr) (strToNat minuteStr) interval
    let ctx : LoopCtx :=
      ⟨ccd_name, seqnum_start hourStr minuteStr, fmtCompact o.obsNow, fmtDashed o.obsNow,
       compress, w⟩
    let r := simulateLoop ctx o numexp
    (.uploaderCreated :: .waiterCreated :: r.1, r.2)

/-- Is this event a staging attempt (a `copy` call)? -/
def SimEvent.isStaged : SimEvent → Bool
  | .staged _ _ => true
  | _ => false

/-- Is this event a transfer attempt (an `uploader.transfer` call, successful
or not)? -/
def SimEvent.isTransferAttempt : SimEvent → Bool
  | .transferred _ _ => true
  | _ => false

/-- Number of staging attempts in a trace. -/
def countStaged (evs : List SimEvent) : Nat := evs.countP SimEvent.isStaged

/-- Number of transfer attempts in a trace. -/
def countTransfers (evs : List SimEvent) : Nat := evs.countP SimEvent.isTransferAttempt

end Harness

namespace Harness

/-- C4: for every schedule and exposure index, `wait_exposure` returns at or
after `baseInstant + index * intervalSeconds` (with `baseInstant` fixed at
`Waiter` construction), and if that instant has already passed when it is
invoked it returns immediately, logging the late condition instead of
failing. -/
theorem wait_exposure_at_or_after (now0 : Instant) (hr mi : Nat) (interval : Int)
    (num : Nat) (now : Instant) :
    ((Waiter.init now0 hr mi interval).wait_exposure num now).2 ≥
      (Waiter.init now0 hr mi interval).whenMicros num ∧
    ((Waiter.init now0 hr mi interval).whenMicros num < (now.toMicros : Int) →
      ((Waiter.init now0 hr mi interval).wait_exposure num now).1 = .late ∧
      ((Waiter.init now0 hr mi interval).wait_exposure num now).2 = (now.toMicros : Int)) := by
  generalize hW : (Waiter.init now0 hr mi interval).whenMicros num = W
  unfold Waiter.wait_exposure
  rw [hW]
  split <;> rename_i h
  · exact ⟨by omega, fun _ => ⟨rfl, rfl⟩⟩
  · exact ⟨by omega, fun hlt => absurd (by omega : W - (now.toMicros : Int) < 0) h⟩

/-- Witness for `wait_exposure_at_or_after`: a unit built at 12:00 for a 10:00
start is late for exposure 0 at 12:30 and returns immediately. -/
theorem wait_exposure_at_or_after_witness :
    ((Waiter.init ⟨100, 12, 0, 0, 0⟩ 10 0 17).wait_exposure 0 ⟨100, 12, 30, 0, 0⟩).1 = .late ∧
    ((Waiter.init ⟨100, 12, 0, 0, 0⟩ 10 0 17).wait_exposure 0 ⟨100, 12, 30, 0, 0⟩).2 =
      ((⟨100, 12, 30, 0, 0⟩ : Instant).toMicros : Int) :=
  (wait_exposure_at_or_after ⟨100, 12, 0, 0, 0⟩ 10 0 17 0 ⟨100, 12, 30, 0, 0⟩).2 (by decide)

/-- Decomposition of `toMicros` into whole days plus time of day. -/
theorem toMicros_eq_day_add_timeOfDay (t : Instant) :
    t.toMicros = 86400000000 * t.day + t.timeOfDayMicros := by
  unfold Instant.toMicros Instant.timeOfDayMicros
  ring

/-- C10: the `Waiter` base instant always lies on the calendar day on which
the unit is constructed (that day at `hour:minute`, seconds and microseconds
zeroed) - it never rolls over to the next day; when the configured time of day
is earlier than the construction time, the base instant is in the past and
exposure 0 is treated as late (immediate return), not deferred by 24 hours. -/
theorem waiter_base_same_day (now : Instant) (hr mi : Nat) (interval : Int) :
    (Waiter.init now hr mi interval).base_time = ⟨now.day, hr, mi, 0, 0⟩ ∧
    (Waiter.init now hr mi interval).base_time.day = now.day ∧
    ((Instant.mk now.day hr mi 0 0).timeOfDayMicros < now.timeOfDayMicros →
      ((Waiter.init now hr mi interval).wait_exposure 0 now).1 = .late ∧
      ((Waiter.init now hr mi interval).wait_exposure 0 now).2 = (now.toMicros : Int)) := by
  refine ⟨rfl, rfl, fun hlt => ?_⟩
  have hbase : (Waiter.init now hr mi interval).base_time = ⟨now.day, hr, mi, 0, 0⟩ := rfl
  have hwhen : (Waiter.init now hr mi interval).whenMicros 0 =
      ((Instant.mk now.day hr mi 0 0).toMicros : Int) := by
    unfold Waiter.whenMicros
    rw [hbase]
    push_cast
    ring
  have hb := toMicros_eq_day_add_timeOfDay (Instant.mk now.day hr mi 0 0)
  have hn := toMicros_eq_day_add_timeOfDay now
  have hlt' : (Waiter.init now hr mi interval).whenMicros 0 - (now.toMicros : Int) < 0 := by
    rw [hwhen]
    have : (Instant.mk now.day hr mi 0 0).toMicros < now.toMicros := by
      simp only [hb, hn]
      omega
    omega
  unfold Waiter.wait_exposure
  rw [if_pos hlt']
  exact ⟨rfl, rfl⟩

/-- Witness for `waiter_base_same_day`: constructed at 12:30:15 for a 10:00
start, exposure 0 is immediately late. -/
theorem waiter_base_same_day_witness :
    ((Waiter.init ⟨100, 12, 30, 15, 0⟩ 10 0 17).wait_exposure 0 ⟨100, 12, 30, 15, 0⟩).1 = .late ∧
    ((Waiter.init ⟨100, 12, 30, 15, 0⟩ 10 0 17).wait_exposure 0 ⟨100, 12, 30, 15, 0⟩).2 =
      ((⟨100, 12, 30, 15, 0⟩ : Instant).toMicros : Int) :=
  (waiter_base_same_day ⟨100, 12, 30, 15, 0⟩ 10 0 17).2.2 (by decide)

/-- The characters emitted for single decimal digits are never `'.'`. -/
theorem digitChar_lt_ten_ne_dot (k : Nat) (hk : k < 10) : Nat.digitChar k ≠ '.' := by
  interval_cases k <;> decide

/-- Decimal digit strings never contain a `'.'`. -/
theorem dot_not_mem_natDigitsAux (fuel : Nat) : ∀ n : Nat, ('.' : Char) ∉ natDigitsAux fuel n := by
  induction fuel with
  | zero => intro n; simp [natDigitsAux]
  | succ f ih =>
    intro n
    simp only [natDigitsAux]
    split
    · rename_i h
      simp only [List.mem_singleton]
      intro hc
      exact digitChar_lt_ten_ne_dot n h hc.symm
    · simp only [List.mem_append, List.mem_singleton]
      rintro (hmem | hc)
      · exact ih _ hmem
      · exact digitChar_lt_ten_ne_dot (n % 10) (Nat.mod_lt _ (by norm_num)) hc.symm

/-- `str(n)` never contains a `'.'`. -/
theorem dot_not_mem_natDigits (n : Nat) : ('.' : Char) ∉ natDigits n :=
  dot_not_mem_natDigitsAux _ _

/-- Zero-padded decimal fields never contain a `'.'`. -/
theorem dot_not_mem_zfill (w n : Nat) : ('.' : Char) ∉ zfill w n := by
  simp only [zfill, List.mem_append]
  rintro (h | h)
  · exact absurd (List.eq_of_mem_replicate h) (by decide)
  · exact dot_not_mem_natDigits n h

/-- `strftime("%Y%m%d")` output never contains a `'.'`. -/
theorem dot_not_mem_fmtCompact (d : ObsDate) : ('.' : Char) ∉ fmtCompact d := by
  simp only [fmtCompact, List.mem_append]
  rintro ((h | h) | h) <;> exact dot_not_mem_zfill _ _ h

/-- `Path.with_suffix` semantics on a name ending in `.fits`: the part
stripped off (everything from the last dot) is exactly `.fits`, since that
final dot is the last one. -/
theorem dropLastSuffix_fits (stem : PyStr) :
    dropLastSuffix (stem ++ ".fits".data) = stem := by
  have hmem : ('.' : Char) ∈ stem ++ ".fits".data :=
    List.mem_append.mpr (Or.inr (by decide))
  unfold dropLastSuffix
  rw [if_pos hmem]
  rw [show (".fits".data : PyStr) = ['.', 'f', 'i', 't', 's'] from by decide]
  rw [List.reverse_append]
  rw [show (['.', 'f', 'i', 't', 's'] : PyStr).reverse = ['s', 't', 'i', 'f', '.'] from by decide]
  have hdw : (['s', 't', 'i', 'f', '.'] ++ stem.reverse).dropWhile (· != '.') =
      '.' :: stem.reverse := by
    simp [List.dropWhile]
  rw [hdw]
  simp

/-- C5 counterexample: with `compress` set and the `fpack` child process
failing (exit code 1, not 0), `copy` still returns successfully, handing back
the `.fits.fz` path; the claimed `StagingError` is never raised. -/
theorem copy_ignores_fpack_failure_cx :
    copy ⟨"2024-01-15".data, "2024011510000".data, "MC_O_20240115_10000_0-0.fits".data⟩
        true 0 1 =
      .ok ⟨"2024-01-15".data, "2024011510000".data, "MC_O_20240115_10000_0-0.fits.fz".data⟩ ∧
    (1 : Int) ≠ 0 := by decide

/-- C5 (amended): `copy` never raises - its result is independent of the `cp`
and `fpack` exit codes, and with `compress` set it always returns the
destination with the `.fits.fz` suffix (rendering as the original path plus
`.fz` when the file name ends in `.fits` with a dot-free stem), whether or not
compression succeeded. -/
theorem copy_never_raises (dest : ArtifactPath) (c : Bool) (e1 e2 e1' e2' : Int) :
    copy dest c e1 e2 = copy dest c e1' e2' ∧
    copy dest true e1 e2 = .ok (dest.withSuffix ".fits.fz".data) ∧
    (∀ stem, dest.fileName = stem ++ ".fits".data →
      (dest.withSuffix ".fits.fz".data).render = dest.render ++ ".fz".data) := by
  refine ⟨rfl, rfl, fun stem hfn => ?_⟩
  unfold ArtifactPath.withSuffix ArtifactPath.render
  simp only [hfn]
  rw [dropLastSuffix_fits stem]
  simp [List.append_assoc]

/-- Witness for `copy_never_raises`: the suffixed path of a concrete staged
file renders as the original path plus `.fz`. -/
theorem copy_never_raises_witness :
    ((⟨"2024-01-15".data, "2024011510000".data, "MC_O_20240115_10000_0-0.fits".data⟩ :
        ArtifactPath).withSuffix ".fits.fz".data).render =
      (⟨"2024-01-15".data, "2024011510000".data, "MC_O_20240115_10000_0-0.fits".data⟩ :
        ArtifactPath).render ++ ".fz".data :=
  (copy_never_raises _ true 0 1 0 0).2.2 "MC_O_20240115_10000_0-0".data (by decide)

/-- C1 counterexample: the units `0-0` and `0-1`, started with the same
schedule spec (`10:00`), derive the same sequence number for exposure index 0,
contradicting the claimed distinctness. -/
theorem unitSeqnum_collision_cx :
    "0-0".data ≠ "0-1".data ∧
    unitSeqnum "0-0".data "10".data "00".data 0 =
      unitSeqnum "0-1".data "10".data "00".data 0 := by decide

/-- C1 (amended): two units started with the same schedule spec derive
identical sequence numbers at every exposure index - the derivation never
reads the unit identifier - while their artifact paths still differ because
the file name embeds the unit identifier. -/
theorem unitSeqnum_ignores_unit_id (id1 id2 : PyStr) (hourStr minuteStr : PyStr) (i : Nat)
    (obs_day obs_day_str : PyStr) :
    unitSeqnum id1 hourStr minuteStr i = unitSeqnum id2 hourStr minuteStr i ∧
    (id1 ≠ id2 →
      apxfrDestPath obs_day obs_day_str (unitSeqnum id1 hourStr minuteStr i) id1 ≠
        apxfrDestPath obs_day obs_day_str (unitSeqnum id2 hourStr minuteStr i) id2) := by
  refine ⟨rfl, fun hne heq => hne ?_⟩
  have hfn := congrArg ArtifactPath.fileName heq
  simp only [unitSeqnum, apxfrDestPath, List.append_assoc] at hfn
  have h1 := List.append_cancel_left hfn
  have h2 := List.append_cancel_left h1
  have h3 := List.append_cancel_left h2
  have h4 := List.append_cancel_left h3
  have h5 := List.append_cancel_left h4
  exact List.append_cancel_right h5

/-- C7: a failure of the one-time priming probe in `GsapiUploader.__init__` is
caught and logged (`Ignored: ...`), and construction still succeeds, producing
the same uploader state as a successful probe - the probe outcome is never
fatal. -/
theorem gsapi_priming_swallowed (dest exc : PyStr) :
    ∃ st : GsapiState,
      gsapiInit dest (.error exc) = .ok (st, ["Ignored: ".data ++ exc]) ∧
      gsapiInit dest (.ok ()) = .ok (st, []) :=
  ⟨⟨(if dest.contains '/' then pySplitFirst dest '/' else (dest, [])).1,
    (if dest.contains '/' then pySplitFirst dest '/' else (dest, [])).2⟩, rfl, rfl⟩

/-- C9: `Uploader.create` sends `boto://` and `minio://` destinations to the
same `GsapiUploader` class as `gsapi://` (with the scheme prefix stripped),
sends `bbcp://` to the `HttpUploader` class (prefix stripped), and never
instantiates the `BotoUploader` or `MinioUploader` classes for any
destination URI. -/
theorem create_boto_minio_alias_gsapi (t : PyStr) :
    Uploader.create ("gsapi://".data ++ t) = .ok (.gsapiU t) ∧
    Uploader.create ("boto://".data ++ t) = .ok (.gsapiU t) ∧
    Uploader.create ("minio://".data ++ t) = .ok (.gsapiU t) ∧
    Uploader.create ("bbcp://".data ++ t) = .ok (.httpU t) ∧
    (∀ dest s : PyStr,
      Uploader.create dest ≠ .ok (.botoU s) ∧ Uploader.create dest ≠ .ok (.minioU s)) := by
  refine ⟨?_, ?_, ?_, ?_, fun dest s => ?_⟩
  · simp [Uploader.create, List.isPrefixOf]
  · simp [Uploader.create, List.isPrefixOf]
  · simp [Uploader.create, List.isPrefixOf]
  · simp [Uploader.create, List.isPrefixOf]
  · unfold Uploader.create
    split_ifs <;> simp

/-- C6: a destination URI matching none of the recognized scheme prefixes
makes `Uploader.create` fail with the configuration error (not a transfer
error), and `simulate` then ends with that error and an empty event trace -
before the `Waiter` is created and before any exposure waiting; when a scheme
prefix does match, it alone determines which uploader class is
instantiated. -/
theorem unrecognized_scheme_fails_before_scheduling
    (dest ccd_name hourStr minuteStr : PyStr) (interval : Int) (numexp : Nat)
    (compress : Bool) (o : SimOracle) :
    (matchedScheme dest = none →
      Uploader.create dest = .error (.configError dest) ∧
      simulate ccd_name hourStr minuteStr dest interval numexp compress o =
        ([], some (.configError dest))) ∧
    (∀ s, matchedScheme dest = some s →
      ∃ u, Uploader.create dest = .ok u ∧ u.kind = kindOfScheme s) := by
  constructor
  · intro hm
    simp only [matchedScheme] at hm
    split_ifs at hm with h1 h2 h3 h4 h5 h6
    have hcr : Uploader.create dest = .error (.configError dest) := by
      simp [Uploader.create, h1, h2, h3, h4, h5, h6]
    exact ⟨hcr, by simp [simulate, hcr]⟩
  · intro s hs
    simp only [matchedScheme] at hs
    split_ifs at hs with h1 h2 h3 h4 h5 h6 <;>
      rw [← Option.some.inj hs]
    · exact ⟨.gsapiU (dest.drop 8), by simp [Uploader.create, h1], rfl⟩
    · exact ⟨.gsapiU (dest.drop 7), by simp [Uploader.create, h1, h2], rfl⟩
    · exact ⟨.gsapiU (dest.drop 8), by simp [Uploader.create, h1, h2, h3], rfl⟩
    · exact ⟨.httpU dest, by simp [Uploader.create, h1, h2, h3, h4], rfl⟩
    · exact ⟨.httpU (dest.drop 7), by simp [Uploader.create, h1, h2, h3, h4, h5], rfl⟩
    · exact ⟨.scpU (dest.drop 6), by simp [Uploader.create, h1, h2, h3, h4, h5, h6], rfl⟩

/-- Witness for `unrecognized_scheme_fails_before_scheduling`: `ftp://x` is
rejected with the configuration error and an empty trace; `gsapi://b` selects
the `GsapiUploader` class. -/
theorem unrecognized_scheme_fails_before_scheduling_witness :
    (Uploader.create "ftp://x".data = .error (.configError "ftp://x".data) ∧
      simulate "0-0".data "10".data "00".data "ftp://x".data 17 3 false
          ⟨⟨0, 0, 0, 0, 0⟩, fun _ => ⟨0, 0, 0, 0, 0⟩, ⟨2024, 1, 1⟩, fun _ => 0, fun _ => 0,
            fun _ => true⟩ =
        ([], some (.configError "ftp://x".data))) ∧
    (∃ u, Uploader.create "gsapi://b".data = .ok u ∧ u.kind = kindOfScheme .gsapi) :=
  ⟨(unrecognized_scheme_fails_before_scheduling "ftp://x".data "0-0".data "10".data "00".data
      17 3 false _).1 (by decide),
   (unrecognized_scheme_fails_before_scheduling "gsapi://b".data "0-0".data "10".data "00".data
      17 3 false ⟨⟨0, 0, 0, 0, 0⟩, fun _ => ⟨0, 0, 0, 0, 0⟩, ⟨2024, 1, 1⟩, fun _ => 0,
        fun _ => 0, fun _ => true⟩).2 .gsapi (by decide)⟩

/-- Witness for `unitSeqnum_ignores_unit_id`: concrete units `0-0` and `0-1`
get distinct artifact paths. -/
theorem unitSeqnum_ignores_unit_id_witness :
    apxfrDestPath "20240115".data "2024-01-15".data
        (unitSeqnum "0-0".data "10".data "00".data 0) "0-0".data ≠
      apxfrDestPath "20240115".data "2024-01-15".data
        (unitSeqnum "0-1".data "10".data "00".data 0) "0-1".data :=
  (unitSeqnum_ignores_unit_id "0-0".data "0-1".data "10".data "00".data 0
    "20240115".data "2024-01-15".data).2 (by decide)

/-- Counting over a cons trace. -/
theorem countStaged_cons (e : SimEvent) (evs : List SimEvent) :
    countStaged (e :: evs) = countStaged evs + (if e.isStaged then 1 else 0) :=
  List.countP_cons _ _ _

/-- Counting transfer attempts over a cons trace. -/
theorem countTransfers_cons (e : SimEvent) (evs : List SimEvent) :
    countTransfers (e :: evs) = countTransfers evs + (if e.isTransferAttempt then 1 else 0) :=
  List.countP_cons _ _ _

/-- When every transfer up to `n` succeeds, the loop makes exactly `n` staging
attempts and `n` transfer attempts and ends without error. -/
theorem simulateLoop_all_ok (ctx : LoopCtx) (o : SimOracle) (n : Nat)
    (h : ∀ i, i < n → o.transferOk i = true) :
    countStaged (simulateLoop ctx o n).1 = n ∧
    countTransfers (simulateLoop ctx o n).1 = n ∧
    (simulateLoop ctx o n).2 = none := by
  induction n with
  | zero => simp [simulateLoop, countStaged, countTransfers]
  | succ n ih =>
    obtain ⟨hs, ht, he⟩ := ih (fun i hi => h i (Nat.lt_succ_of_lt hi))
    rcases hsl : simulateLoop ctx o n with ⟨evs, err⟩
    rw [hsl] at hs ht he
    simp only at hs ht he
    subst he
    simp only [simulateLoop, hsl, copy, h n (Nat.lt_succ_self n), if_true]
    simp only [countStaged, countTransfers] at hs ht ⊢
    refine ⟨?_, ?_, ?_⟩
    · simp [List.countP_append, SimEvent.isStaged]
      omega
    · simp [List.countP_append, SimEvent.isTransferAttempt]
      omega
    · trivial

/-- When the transfers before `k` succeed and the one at `k < n` fails, the
loop stops after `k+1` staging attempts and `k+1` transfer attempts, ending
with the transfer error of exposure `k`. -/
theorem simulateLoop_abort (ctx : LoopCtx) (o : SimOracle) (n k : Nat) (hk : k < n)
    (hbefore : ∀ j, j < k → o.transferOk j = true) (hfail : o.transferOk k = false) :
    countStaged (simulateLoop ctx o n).1 = k + 1 ∧
    countTransfers (simulateLoop ctx o n).1 = k + 1 ∧
    (simulateLoop ctx o n).2 = some (.transferError k) := by
  induction n with
  | zero => exact absurd hk (Nat.not_lt_zero k)
  | succ n ih =>
    rcases Nat.lt_or_ge k n with hlt | hge
    · obtain ⟨hs, ht, he⟩ := ih hlt
      rcases hsl : simulateLoop ctx o n with ⟨evs, err⟩
      rw [hsl] at hs ht he
      simp only at hs ht he
      subst he
      simp only [simulateLoop, hsl]
      exact ⟨hs, ht, trivial⟩
    · have hkn : k = n := by omega
      subst hkn
      obtain ⟨hs, ht, he⟩ := simulateLoop_all_ok ctx o k hbefore
      rcases hsl : simulateLoop ctx o k with ⟨evs, err⟩
      rw [hsl] at hs ht he
      simp only at hs ht he
      subst he
      simp only [simulateLoop, hsl, copy, hfail]
      simp only [countStaged, countTransfers] at hs ht ⊢
      refine ⟨?_, ?_, ?_⟩
      · simp [List.countP_append, SimEvent.isStaged]
        omega
      · simp [List.countP_append, SimEvent.isTransferAttempt]
        omega
      · trivial

/-- C2 counterexample: with `numexp = 3` and the transfer of exposure 0
failing, the run makes only 1 staging attempt (not 3) and ends with the
transfer error: the loop does not continue past an exception. -/
theorem loop_does_not_continue_cx :
    countStaged (simulate "0-0".data "10".data "00".data "http://example/bucket".data 17 3 false
        ⟨⟨0, 0, 0, 0, 0⟩, fun _ => ⟨0, 0, 0, 0, 0⟩, ⟨2024, 1, 1⟩, fun _ => 0, fun _ => 0,
          fun i => i != 0⟩).1 = 1 ∧
    (1 : Nat) ≠ 3 ∧
    (simulate "0-0".data "10".data "00".data "http://example/bucket".data 17 3 false
        ⟨⟨0, 0, 0, 0, 0⟩, fun _ => ⟨0, 0, 0, 0, 0⟩, ⟨2024, 1, 1⟩, fun _ => 0, fun _ => 0,
          fun i => i != 0⟩).2 = some (.transferError 0) := by decide

/-- C2 (amended): once the uploader is constructed, a run with `numexp = N`
whose transfers all succeed makes exactly N staging and N transfer attempts;
but an exception raised by the transfer of exposure `k` ends the unit run
after exactly `k+1` staging and `k+1` transfer attempts - the loop has no
`try/except` and does not continue to later scheduled exposures.  (Staging
itself never raises, since `copy` ignores the child-process exit codes.) -/
theorem simulate_attempt_counts (ccd_name hourStr minuteStr destination : PyStr)
    (interval : Int) (numexp : Nat) (compress : Bool) (o : SimOracle) (u : Uploader)
    (hu : Uploader.create destination = .ok u) :
    ((∀ i, i < numexp → o.transferOk i = true) →
      countStaged (simulate ccd_name hourStr minuteStr destination interval numexp
          compress o).1 = numexp ∧
      countTransfers (simulate ccd_name hourStr minuteStr destination interval numexp
          compress o).1 = numexp ∧
      (simulate ccd_name hourStr minuteStr destination interval numexp compress o).2 = none) ∧
    (∀ k, k < numexp → (∀ j, j < k → o.transferOk j = true) → o.transferOk k = false →
      countStaged (simulate ccd_name hourStr minuteStr destination interval numexp
          compress o).1 = k + 1 ∧
      countTransfers (simulate ccd_name hourStr minuteStr destination interval numexp
          compress o).1 = k + 1 ∧
      (simulate ccd_name hourStr minuteStr destination interval numexp compress o).2 =
        some (.transferError k)) := by
  have hsim : simulate ccd_name hourStr minuteStr destination interval numexp compress o =
      (SimEvent.uploaderCreated :: SimEvent.waiterCreated ::
        (simulateLoop ⟨ccd_name, seqnum_start hourStr minuteStr, fmtCompact o.obsNow,
          fmtDashed o.obsNow, compress,
          Waiter.init o.waiterNow (strToNat hourStr) (strToNat minuteStr) interval⟩
          o numexp).1,
       (simulateLoop ⟨ccd_name, seqnum_start hourStr minuteStr, fmtCompact o.obsNow,
          fmtDashed o.obsNow, compress,
          Waiter.init o.waiterNow (strToNat hourStr) (strToNat minuteStr) interval⟩
          o numexp).2) := by
    simp [simulate, hu]
  constructor
  · intro hall
    obtain ⟨hs, ht, he⟩ := simulateLoop_all_ok ⟨ccd_name, seqnum_start hourStr minuteStr,
      fmtCompact o.obsNow, fmtDashed o.obsNow, compress,
      Waiter.init o.waiterNow (strToNat hourStr) (strToNat minuteStr) interval⟩ o numexp hall
    rw [hsim]
    refine ⟨?_, ?_, he⟩ <;>
      simp [countStaged_cons, countTransfers_cons, SimEvent.isStaged,
        SimEvent.isTransferAttempt, hs, ht]
  · intro k hk hbefore hfail
    obtain ⟨hs, ht, he⟩ := simulateLoop_abort ⟨ccd_name, seqnum_start hourStr minuteStr,
      fmtCompact o.obsNow, fmtDashed o.obsNow, compress,
      Waiter.init o.waiterNow (strToNat hourStr) (strToNat minuteStr) interval⟩ o numexp k
      hk hbefore hfail
    rw [hsim]
    refine ⟨?_, ?_, he⟩ <;>
      simp [countStaged_cons, countTransfers_cons, SimEvent.isStaged,
        SimEvent.isTransferAttempt, hs, ht]

/-- Witness for `simulate_attempt_counts`: a concrete run of 3 exposures whose
transfer fails at exposure 0 stops after one staging and one transfer
attempt. -/
theorem simulate_attempt_counts_witness :
    countStaged (simulate "0-0".data "10".data "00".data "http://example/bucket".data 17 3 false
        ⟨⟨0, 0, 0, 0, 0⟩, fun _ => ⟨0, 0, 0, 0, 0⟩, ⟨2024, 1, 1⟩, fun _ => 0, fun _ => 0,
          fun i => i != 0⟩).1 = 0 + 1 ∧
    countTransfers (simulate "0-0".data "10".data "00".data "http://example/bucket".data 17 3
        false
        ⟨⟨0, 0, 0, 0, 0⟩, fun _ => ⟨0, 0, 0, 0, 0⟩, ⟨2024, 1, 1⟩, fun _ => 0, fun _ => 0,
          fun i => i != 0⟩).1 = 0 + 1 ∧
    (simulate "0-0".data "10".data "00".data "http://example/bucket".data 17 3 false
        ⟨⟨0, 0, 0, 0, 0⟩, fun _ => ⟨0, 0, 0, 0, 0⟩, ⟨2024, 1, 1⟩, fun _ => 0, fun _ => 0,
          fun i => i != 0⟩).2 = some (.transferError 0) :=
  (simulate_attempt_counts "0-0".data "10".data "00".data "http://example/bucket".data 17 3
      false
      ⟨⟨0, 0, 0, 0, 0⟩, fun _ => ⟨0, 0, 0, 0, 0⟩, ⟨2024, 1, 1⟩, fun _ => 0, fun _ => 0,
        fun i => i != 0⟩
      (.httpU "http://example/bucket".data) (by decide)).2 0 (by decide)
    (fun j hj => absurd hj (Nat.not_lt_zero j)) (by decide)

/-- Every staged path in the loop trace carries the obs-day strings fixed in
the loop context, and the `dir2` component is that obs-day plus the padded
sequence number of its exposure. -/
theorem simulateLoop_staged_shape (ctx : LoopCtx) (o : SimOracle) (n : Nat) :
    ∀ i p, SimEvent.staged i p ∈ (simulateLoop ctx o n).1 →
      p.dir1 = ctx.obs_day_str ∧ p.dir2 = ctx.obs_day ++ zfill 5 (ctx.sstart + i) := by
  induction n with
  | zero => intro i p h; simp [simulateLoop] at h
  | succ n ih =>
    intro i p h
    rcases hsl : simulateLoop ctx o n with ⟨evs, err⟩
    have ih' : ∀ i p, SimEvent.staged i p ∈ evs →
        p.dir1 = ctx.obs_day_str ∧ p.dir2 = ctx.obs_day ++ zfill 5 (ctx.sstart + i) := by
      intro i p hmem
      exact ih i p (by rw [hsl]; exact hmem)
    cases err with
    | some e =>
      simp only [simulateLoop, hsl] at h
      exact ih' i p h
    | none =>
      simp only [simulateLoop, hsl, copy] at h
      cases htr : o.transferOk n
      case false =>
        rw [htr] at h
        simp at h
        rcases h with hmem | ⟨rfl, rfl⟩
        · exact ih' i p hmem
        · cases hcp : ctx.compress <;> simp [hcp, ArtifactPath.withSuffix, apxfrDestPath]
      case true =>
        rw [htr] at h
        simp at h
        rcases h with hmem | ⟨rfl, rfl⟩
        · exact ih' i p hmem
        · cases hcp : ctx.compress <;> simp [hcp, ArtifactPath.withSuffix, apxfrDestPath]

/-- C8: every staged artifact path of a run carries the obs-day strings
derived from the single run-start clock reading (`o.obsNow`): `dir1` is the
dashed obs-day and `dir2` the compact obs-day plus sequence number, for every
exposure index, independent of the per-exposure clock readings - so a run
crossing local midnight keeps one obs-day, and any two staged paths of the
run share `dir1`. -/
theorem obs_day_fixed_at_run_start (ccd_name hourStr minuteStr destination : PyStr)
    (interval : Int) (numexp : Nat) (compress : Bool) (o : SimOracle) (i : Nat)
    (p : ArtifactPath)
    (hp : SimEvent.staged i p ∈ (simulate ccd_name hourStr minuteStr destination interval
      numexp compress o).1) :
    p.dir1 = fmtDashed o.obsNow ∧
    p.dir2 = fmtCompact o.obsNow ++ zfill 5 (seqnum_start hourStr minuteStr + i) ∧
    (∀ j q, SimEvent.staged j q ∈ (simulate ccd_name hourStr minuteStr destination interval
        numexp compress o).1 → q.dir1 = p.dir1) := by
  cases hc : Uploader.create destination with
  | error e =>
    rw [show simulate ccd_name hourStr minuteStr destination interval numexp compress o =
        ([], some e) from by simp [simulate, hc]] at hp
    simp at hp
  | ok u =>
    have hsim : (simulate ccd_name hourStr minuteStr destination interval numexp
        compress o).1 =
        SimEvent.uploaderCreated :: SimEvent.waiterCreated ::
          (simulateLoop ⟨ccd_name, seqnum_start hourStr minuteStr, fmtCompact o.obsNow,
            fmtDashed o.obsNow, compress,
            Waiter.init o.waiterNow (strToNat hourStr) (strToNat minuteStr) interval⟩
            o numexp).1 := by
      simp [simulate, hc]
    rw [hsim] at hp
    simp only [List.mem_cons] at hp
    rcases hp with hp | hp | hp
    · exact absurd hp (by simp)
    · exact absurd hp (by simp)
    · have h1 := simulateLoop_staged_shape _ o numexp i p hp
      refine ⟨h1.1, h1.2, fun j q hq => ?_⟩
      rw [hsim] at hq
      simp only [List.mem_cons] at hq
      rcases hq with hq | hq | hq
      · exact absurd hq (by simp)
      · exact absurd hq (by simp)
      · have h2 := simulateLoop_staged_shape _ o numexp j q hq
        rw [h2.1, h1.1]

/-- Witness for `obs_day_fixed_at_run_start`: the path staged for exposure 0
of a concrete run carries the run-start obs-day. -/
theorem obs_day_fixed_at_run_start_witness :
    (apxfrDestPath (fmtCompact ⟨2024, 1, 1⟩) (fmtDashed ⟨2024, 1, 1⟩)
        (seqnum_start "10".data "00".data + 0) "0-0".data).dir1 = fmtDashed ⟨2024, 1, 1⟩ ∧
    (apxfrDestPath (fmtCompact ⟨2024, 1, 1⟩) (fmtDashed ⟨2024, 1, 1⟩)
        (seqnum_start "10".data "00".data + 0) "0-0".data).dir2 =
      fmtCompact ⟨2024, 1, 1⟩ ++ zfill 5 (seqnum_start "10".data "00".data + 0) ∧
    (∀ j q, SimEvent.staged j q ∈ (simulate "0-0".data "10".data "00".data "http://e".data 17 1
        false
        ⟨⟨0, 0, 0, 0, 0⟩, fun _ => ⟨0, 0, 0, 0, 0⟩, ⟨2024, 1, 1⟩, fun _ => 0, fun _ => 0,
          fun _ => true⟩).1 →
      q.dir1 = (apxfrDestPath (fmtCompact ⟨2024, 1, 1⟩) (fmtDashed ⟨2024, 1, 1⟩)
        (seqnum_start "10".data "00".data + 0) "0-0".data).dir1) :=
  obs_day_fixed_at_run_start "0-0".data "10".data "00".data "http://e".data 17 1 false
    ⟨⟨0, 0, 0, 0, 0⟩, fun _ => ⟨0, 0, 0, 0, 0⟩, ⟨2024, 1, 1⟩, fun _ => 0, fun _ => 0,
      fun _ => true⟩ 0
    (apxfrDestPath (fmtCompact ⟨2024, 1, 1⟩) (fmtDashed ⟨2024, 1, 1⟩)
      (seqnum_start "10".data "00".data + 0) "0-0".data) (by decide)

/-- C3 counterexample: at a concrete obs-day, sequence number and sensor id,
the path generated by the apxfr harness differs from the format stated in the
spec (the separator before the sensor id is `_`, not `-`). -/
theorem apxfr_path_format_cx :
    (apxfrDestPath (fmtCompact ⟨2024, 1, 15⟩) (fmtDashed ⟨2024, 1, 15⟩) 10000 "0-0".data).render ≠
      specArtifactPath ⟨2024, 1, 15⟩ 10000 "MC".data "0-0".data false [] := by decide

/-- C3 (amended): the `src/harness.py` path matches the spec's format exactly
(hyphen before the sensor id, camera tag parameter, `.gz` appended via suffix
replacement when compressing), while the apxfr harness fixes camera tag `MC`
and separates the sensor id with an underscore, so its file name never equals
the spec-format file name for the same inputs. -/
theorem artifact_path_formats (d : ObsDate) (sn : Nat) (camera ccd : PyStr) :
    (srcDestPath camera (fmtCompact d) (fmtDashed d) sn ccd).render =
      specArtifactPath d sn camera ccd false [] ∧
    ((srcDestPath camera (fmtCompact d) (fmtDashed d) sn ccd).withSuffix
        ".fits.gz".data).render =
      specArtifactPath d sn camera ccd true "gz".data ∧
    (apxfrDestPath (fmtCompact d) (fmtDashed d) sn ccd).fileName ≠
      (srcDestPath "MC".data (fmtCompact d) (fmtDashed d) sn ccd).fileName := by
  refine ⟨?_, ?_, fun heq => ?_⟩
  · simp [srcDestPath, ArtifactPath.render, specArtifactPath, List.append_assoc]
  · unfold ArtifactPath.withSuffix ArtifactPath.render srcDestPath
    simp only
    rw [dropLastSuffix_fits
      (camera ++ "_O_".data ++ fmtCompact d ++ "_".data ++ zfill 5 sn ++ "-".data ++ ccd)]
    simp [specArtifactPath, List.append_assoc]
  · simp only [apxfrDestPath, srcDestPath] at heq
    rw [show (['M', 'C', '_', 'O', '_'] : PyStr) = ['M', 'C'] ++ ['_', 'O', '_'] from rfl] at heq
    simp only [List.append_assoc] at heq
    have h1 := List.append_cancel_left heq
    have h2 := List.append_cancel_left h1
    have h3 := List.append_cancel_left h2
    have h4 := List.append_cancel_left h3
    simp only [List.singleton_append] at h4
    have h5 := List.append_cancel_left h4
    injection h5 with h6 _
    exact absurd h6 (by decide)

end Harness
